import Mathlib

/-!
Verification of the help-desk ticketing backend (mi-backend).

The definitions below are a shallow embedding of the JavaScript source:
the Prisma data model (prisma migration), the authorization middleware
(`verifyOwnership` in src/middleware/auth.js), the ticket routes
(src/routes/tickets.js) and the ticket / comment controllers
(src/controllers/ticketController.js, comentarioController.js) and the
ticket-number helper (src/utils/helpers.js).

Conventions of the embedding:
- Record ids (uuids in the source) are modelled as `Nat`.
- Timestamps are modelled by a logical clock in the store (`DB.clock`);
  every record insertion stamps the current clock and bumps it, so
  "ordered by timestamp" coincides with insertion order.
- Float hour values are modelled as exact rationals (`ℚ`); the claims
  about them concern additive bookkeeping, not rounding.
- An HTTP handler is a function `DB → ... → DB × Except HttpError α`:
  the returned store reflects every write the handler performed before
  answering, and `HttpError` collects the handler status codes
  (400 badRequest, 403 forbidden, 404 notFound, 500 internalError).
- A JavaScript `TypeError` on a `null` record (dereferencing a field of
  a missing row) is caught by the surrounding try/catch in the source
  and answered as a 500; it is modelled as `internalError`.
-/

namespace Helpdesk

/-- Enum `RolUsuario` of the Prisma schema. -/
inductive Rol where
  | ADMIN
  | JEFE_DEPARTAMENTO
  | AGENTE
  | CLIENTE
deriving DecidableEq, Repr

/-- Enum `EstadoTicket` of the Prisma schema. -/
inductive Estado where
  | ABIERTO
  | EN_PROGRESO
  | EN_ESPERA
  | RESUELTO
  | CERRADO
  | CANCELADO
deriving DecidableEq, Repr

/-- Enum `PrioridadTicket` of the Prisma schema. -/
inductive Prioridad where
  | BAJA
  | MEDIA
  | ALTA
  | URGENTE
deriving DecidableEq, Repr

/-- The string the source uses for each status (used in default history
messages, e.g. `Estado cambiado a RESUELTO`). -/
def estadoStr : Estado → String
  | .ABIERTO => "ABIERTO"
  | .EN_PROGRESO => "EN_PROGRESO"
  | .EN_ESPERA => "EN_ESPERA"
  | .RESUELTO => "RESUELTO"
  | .CERRADO => "CERRADO"
  | .CANCELADO => "CANCELADO"

/-- Table `usuarios`: the fields the authorization and assignment logic
reads. `departamentoId` is nullable in the schema. -/
structure Usuario where
  id : Nat
  rol : Rol
  departamentoId : Option Nat
  estaActivo : Bool
  nombreCompleto : String
deriving DecidableEq, Repr

/-- Table `tickets`: the fields the lifecycle logic reads or writes.
`estado` defaults to `ABIERTO`; `horasReales` is a nullable double with
no default, so a row created without it holds NULL (`none`). -/
structure Ticket where
  id : Nat
  numeroTicket : String
  asunto : String
  descripcion : String
  estado : Estado
  prioridad : Prioridad
  horasReales : Option ℚ
  fechaResolucion : Option Nat
  fechaCierre : Option Nat
  creadorId : Nat
  agenteId : Option Nat
  departamentoId : Nat
  categoriaId : Nat
deriving DecidableEq, Repr

/-- Table `comentarios`. -/
structure Comentario where
  id : Nat
  contenido : String
  esInterno : Bool
  creadoEn : Nat
  autorId : Nat
  ticketId : Nat
deriving DecidableEq, Repr

/-- Table `historial_estados`: `estadoAnterior` is nullable. -/
structure HistorialEstado where
  ticketId : Nat
  estadoAnterior : Option Estado
  estadoNuevo : Estado
  comentario : Option String
  cambiadoEn : Nat
deriving DecidableEq, Repr

/-- Table `registros_trabajo`. -/
structure RegistroTrabajo where
  ticketId : Nat
  agenteId : Nat
  descripcion : String
  horas : ℚ
  fechaTrabajo : Nat
  creadoEn : Nat
deriving DecidableEq, Repr

/-- The relational store reached through the Prisma client, plus the
logical clock and a fresh-id source for created rows. -/
structure DB where
  usuarios : List Usuario
  tickets : List Ticket
  comentarios : List Comentario
  historial : List HistorialEstado
  registros : List RegistroTrabajo
  nextId : Nat
  clock : Nat
deriving DecidableEq, Repr

/-- Handler status codes of the source controllers. -/
inductive HttpError where
  | badRequest
  | forbidden
  | notFound
  | internalError
deriving DecidableEq, Repr

instance {ε α : Type} [DecidableEq ε] [DecidableEq α] :
    DecidableEq (Except ε α) := fun a b =>
  match a, b with
  | .ok x, .ok y =>
      if h : x = y then .isTrue (by rw [h]) else .isFalse (by simp [h])
  | .error x, .error y =>
      if h : x = y then .isTrue (by rw [h]) else .isFalse (by simp [h])
  | .ok _, .error _ => .isFalse (by simp)
  | .error _, .ok _ => .isFalse (by simp)

/-- `prisma.ticket.findUnique({ where: { id } })`. -/
def findTicket (db : DB) (id : Nat) : Option Ticket :=
  db.tickets.find? (fun t => decide (t.id = id))

/-- `prisma.ticket.update({ where: { id }, data })`, as a field map over
the matching row. -/
def updateTicket (db : DB) (id : Nat) (f : Ticket → Ticket) : DB :=
  { db with tickets := db.tickets.map (fun t => if t.id = id then f t else t) }

/-- Append a history row, stamping and bumping the clock
(`prisma.historialEstado.create`). -/
def appendHistorial (db : DB) (pre : Option Estado) (nuevo : Estado)
    (com : Option String) (tid : Nat) : DB :=
  { db with
    historial := db.historial ++
      [{ ticketId := tid, estadoAnterior := pre, estadoNuevo := nuevo,
         comentario := com, cambiadoEn := db.clock }],
    clock := db.clock + 1 }

/-- History rows of one ticket, in timestamp order (the store only ever
appends with a strictly increasing clock). -/
def historyOf (db : DB) (tid : Nat) : List HistorialEstado :=
  db.historial.filter (fun h => decide (h.ticketId = tid))

/-- Work-log rows of one ticket. -/
def registrosOf (db : DB) (tid : Nat) : List RegistroTrabajo :=
  db.registros.filter (fun r => decide (r.ticketId = tid))

/-- Sum of the hours in a ticket's work-log rows. -/
def sumHoras (db : DB) (tid : Nat) : ℚ :=
  (registrosOf db tid).foldr (fun r acc => r.horas + acc) 0

/-- `verifyOwnership('ticket')` from src/middleware/auth.js, lines
132-197.  The middleware loads the ticket and then branches on the
requesting user's role; for a missing ticket only the ADMIN branch
reaches the `if (!resource)` existence check (404), while the other
role branches dereference a field of `null` first, which the catch
block answers as a 500. -/
def verifyOwnershipTicket (usuario : Usuario) (db : DB) (id : Nat) :
    Except HttpError Ticket :=
  let resource := findTicket db id
  match usuario.rol with
  | .ADMIN =>
      match resource with
      | some t => .ok t
      | none => .error .notFound
  | .JEFE_DEPARTAMENTO =>
      match resource with
      | none => .error .internalError
      | some t =>
          if some t.departamentoId ≠ usuario.departamentoId then
            .error .forbidden
          else .ok t
  | .AGENTE =>
      match resource with
      | none => .error .internalError
      | some t =>
          if t.agenteId ≠ some usuario.id then .error .forbidden
          else .ok t
  | .CLIENTE =>
      match resource with
      | none => .error .internalError
      | some t =>
          if t.creadorId ≠ usuario.id then .error .forbidden
          else .ok t

/-- `authorize(rolesPermitidos)` from src/middleware/auth.js. -/
def authorize (roles : List Rol) (usuario : Usuario) : Bool :=
  roles.contains usuario.rol

/-- Query filters accepted by `GET /api/tickets`
(`obtenerTickets`, src/controllers/ticketController.js lines 129-169). -/
structure Filtros where
  estado : Option Estado
  prioridad : Option Prioridad
  departamentoId : Option Nat
  categoriaId : Option Nat
  agenteId : Option Nat
  buscar : Option String
deriving DecidableEq, Repr

/-- A request with no query filters. -/
def sinFiltros : Filtros :=
  { estado := none, prioridad := none, departamentoId := none,
    categoriaId := none, agenteId := none, buscar := none }

/-- The `where` object `obtenerTickets` builds: each field is an
optional constraint; later assignments overwrite earlier ones, exactly
as assignments to the same key of the JS object do.  `departamentoId`
carries an `Option Nat` value because the role branch copies the user's
own (nullable) department. -/
structure WhereTicket where
  creadorId : Option Nat
  agenteId : Option Nat
  departamentoId : Option (Option Nat)
  estado : Option Estado
  prioridad : Option Prioridad
  categoriaId : Option Nat
  buscar : Option String
deriving DecidableEq, Repr

/-- Case-insensitive substring test (Prisma `contains` with
`mode: 'insensitive'`). -/
def containsInsensitive (s sub : String) : Bool :=
  if sub = "" then true
  else decide (2 ≤ ((s.toLower).splitOn (sub.toLower)).length)

/-- Lines 143-169 of `obtenerTickets`: the role scope is written first,
then each supplied query filter is assigned, overwriting the role scope
when it targets the same key (`departamentoId`, `agenteId`). -/
def buildWhere (usuario : Usuario) (f : Filtros) : WhereTicket :=
  let w : WhereTicket :=
    { creadorId := none, agenteId := none, departamentoId := none,
      estado := none, prioridad := none, categoriaId := none, buscar := none }
  let w :=
    match usuario.rol with
    | .CLIENTE => { w with creadorId := some usuario.id }
    | .AGENTE => { w with agenteId := some usuario.id }
    | .JEFE_DEPARTAMENTO => { w with departamentoId := some usuario.departamentoId }
    | .ADMIN => w
  let w := match f.estado with
    | some e => { w with estado := some e } | none => w
  let w := match f.prioridad with
    | some p => { w with prioridad := some p } | none => w
  let w := match f.departamentoId with
    | some d => { w with departamentoId := some (some d) } | none => w
  let w := match f.categoriaId with
    | some c => { w with categoriaId := some c } | none => w
  let w := match f.agenteId with
    | some a => { w with agenteId := some a } | none => w
  match f.buscar with
    | some b => { w with buscar := some b } | none => w

/-- Evaluation of the `where` object on one row (Prisma conjunction of
field conditions; the `OR` block built from `buscar` matches the text
columns). -/
def matchesWhere (w : WhereTicket) (t : Ticket) : Bool :=
  (match w.creadorId with
    | some c => decide (t.creadorId = c) | none => true) &&
  (match w.agenteId with
    | some a => decide (t.agenteId = some a) | none => true) &&
  (match w.departamentoId with
    | some d => decide (some t.departamentoId = d) | none => true) &&
  (match w.estado with
    | some e => decide (t.estado = e) | none => true) &&
  (match w.prioridad with
    | some p => decide (t.prioridad = p) | none => true) &&
  (match w.categoriaId with
    | some c => decide (t.categoriaId = c) | none => true) &&
  (match w.buscar with
    | some b => containsInsensitive t.numeroTicket b ||
        containsInsensitive t.asunto b || containsInsensitive t.descripcion b
    | none => true)

/-- `GET /api/tickets`: the set of rows the built `where` selects
(ordering and pagination of the source only rearrange or truncate this
list and are omitted). -/
def obtenerTickets (usuario : Usuario) (f : Filtros) (db : DB) : List Ticket :=
  db.tickets.filter (matchesWhere (buildWhere usuario f))

/-- A calendar year-month, the only part of `new Date()` read by
`generateTicketNumber`. -/
structure Fecha where
  year : Nat
  month : Nat
deriving DecidableEq, Repr

/-- JS `String.prototype.padStart(len, '0')`. -/
def padStart (len : Nat) (s : String) : String :=
  if len ≤ s.length then s
  else String.mk (List.replicate (len - s.length) '0') ++ s

/-- JS `parseInt` restricted to the strings fed to it here: the result
is the leading run of digits, `none` standing for `NaN`. -/
def parseIntNat (s : String) : Option Nat :=
  let ds := s.data.takeWhile Char.isDigit
  if ds.isEmpty then none
  else some (ds.foldl (fun acc c => 10 * acc + (c.toNat - Char.toNat '0')) 0)

/-- Lexicographic byte order on character lists: the order JS string
comparison and the text-column collation use on these ASCII ticket
numbers. -/
def ltChars : List Char → List Char → Bool
  | [], [] => false
  | [], _ :: _ => true
  | _ :: _, [] => false
  | a :: as, b :: bs =>
      if a.toNat < b.toNat then true
      else if b.toNat < a.toNat then false
      else ltChars as bs

/-- String comparison used by `orderBy: { numeroTicket: 'desc' }`. -/
def strLt (a b : String) : Bool := ltChars a.data b.data

/-- Character-list prefix test (Prisma `startsWith`). -/
def esPrefijo : List Char → List Char → Bool
  | [], _ => true
  | _ :: _, [] => false
  | a :: as, b :: bs => decide (a = b) && esPrefijo as bs

/-- `numeroTicket: { startsWith: pref }`. -/
def strStartsWith (pre s : String) : Bool := esPrefijo pre.data s.data

/-- JS `split('-')`: break a character list at every dash. -/
def splitDash : List Char → List (List Char)
  | [] => [[]]
  | c :: cs =>
      if c = '-' then [] :: splitDash cs
      else
        match splitDash cs with
        | [] => [[c]]
        | x :: xs => (c :: x) :: xs

/-- `prisma.ticket.findFirst({ where: { numeroTicket: { startsWith:
pref } }, orderBy: { numeroTicket: 'desc' } })`: the lexicographically
greatest ticket number with the given prefix. -/
def ultimoTicketDelMes (db : DB) (pref : String) : Option Ticket :=
  (db.tickets.filter (fun t => strStartsWith pref t.numeroTicket)).foldl
    (fun acc t =>
      match acc with
      | none => some t
      | some m => if strLt m.numeroTicket t.numeroTicket then some t else some m)
    none

/-- `generateTicketNumber` from src/utils/helpers.js lines 15-48: build
the `YYYY-MM-` prefix, read the last number of the month, parse its
third dash-separated component and pad the successor to six digits.
`parseInt` of a non-numeric component is `NaN`, and
`String(NaN).padStart(6, '0')` is the literal `000NaN`. -/
def generateTicketNumber (db : DB) (now : Fecha) : String :=
  let pref := toString now.year ++ "-" ++ padStart 2 (toString now.month) ++ "-"
  match ultimoTicketDelMes db pref with
  | none => pref ++ padStart 6 (toString 1)
  | some ultimo =>
      let ultimoNumero := String.mk ((splitDash ultimo.numeroTicket.data).getD 2 [])
      match parseIntNat ultimoNumero with
      | some n => pref ++ padStart 6 (toString (n + 1))
      | none => pref ++ padStart 6 "NaN"

/-- The checker for the documented `YYYY-MM-NNNNNN` ticket-number
format. -/
def esFormatoNumeroTicket (s : String) : Bool :=
  match splitDash s.data with
  | [y, m, n] =>
      decide (y.length = 4) && y.all Char.isDigit &&
      decide (m.length = 2) && m.all Char.isDigit &&
      decide (n.length = 6) && n.all Char.isDigit
  | _ => false

/-- Request body of `POST /api/tickets` (the validated fields the
controller reads). -/
structure CrearReq where
  asunto : String
  descripcion : String
  prioridad : Prioridad
  departamentoId : Nat
  categoriaId : Nat
deriving DecidableEq, Repr

/-- `crearTicket` from src/controllers/ticketController.js lines
20-121: generate the number once, insert the ticket (status defaults to
`ABIERTO`, `horasReales` stays NULL), then insert the initial history
row `(null, ABIERTO, 'Ticket creado')`.  A violation of the
`tickets_numeroTicket_key` unique index makes `prisma.ticket.create`
throw; the catch block answers 500 with nothing inserted and no second
attempt. -/
def crearTicket (usuario : Usuario) (req : CrearReq) (db : DB) (now : Fecha) :
    DB × Except HttpError Ticket :=
  let numeroTicket := generateTicketNumber db now
  if db.tickets.any (fun t => decide (t.numeroTicket = numeroTicket)) then
    (db, .error .internalError)
  else
    let t : Ticket :=
      { id := db.nextId, numeroTicket := numeroTicket, asunto := req.asunto,
        descripcion := req.descripcion, estado := .ABIERTO,
        prioridad := req.prioridad, horasReales := none,
        fechaResolucion := none, fechaCierre := none,
        creadorId := usuario.id, agenteId := none,
        departamentoId := req.departamentoId, categoriaId := req.categoriaId }
    let db := { db with tickets := db.tickets ++ [t], nextId := db.nextId + 1,
                        clock := db.clock + 1 }
    let db := appendHistorial db none .ABIERTO (some "Ticket creado") t.id
    (db, .ok t)

/-- JS `comentario || default`: the default is used when the field is
absent or the empty string (both falsy). -/
def orDefault (c : Option String) (d : String) : String :=
  match c with
  | some s => if s = "" then d else s
  | none => d

/-- The `updateData` object `cambiarEstado` builds (lines 537-544): the
requested status, plus `fechaResolucion` on entering `RESUELTO` and
`fechaCierre` on entering `CERRADO`. -/
def cambiarEstadoUpd (clock : Nat) (estado : Estado) (t : Ticket) : Ticket :=
  let t := { t with estado := estado }
  match estado with
  | .RESUELTO => { t with fechaResolucion := some clock }
  | .CERRADO => { t with fechaCierre := some clock }
  | _ => t

/-- `cambiarEstado` from src/controllers/ticketController.js lines
508-589: validate the status value (subsumed by the `Estado` type),
load the current ticket (404 when missing), update the status with the
`updateData` object, and append one history row `(previous, new,
note-or-default)`. -/
def cambiarEstado (db : DB) (id : Nat) (estado : Estado)
    (comentario : Option String) : DB × Except HttpError Ticket :=
  match findTicket db id with
  | none => (db, .error .notFound)
  | some ticketActual =>
      let db2 := updateTicket db id (cambiarEstadoUpd db.clock estado)
      let db3 := appendHistorial db2 (some ticketActual.estado) estado
        (some (orDefault comentario ("Estado cambiado a " ++ estadoStr estado))) id
      (db3, .ok (cambiarEstadoUpd db.clock estado ticketActual))

/-- `asignarTicket` from src/controllers/ticketController.js lines
435-502: reject an unknown, inactive or non-agent assignee with 400;
otherwise unconditionally set `agenteId` and `estado = 'EN_PROGRESO'`
and append one history row.  The `estadoAnterior` ternary reads
`ticket.estado` from the row returned by the update — which is already
`EN_PROGRESO` — so the recorded previous status is always `ABIERTO`.
A missing ticket makes `prisma.ticket.update` throw (caught as 500). -/
def asignarTicket (db : DB) (id : Nat) (agenteId : Nat) :
    DB × Except HttpError Ticket :=
  match db.usuarios.find? (fun a => decide (a.id = agenteId) &&
      (decide (a.rol = .AGENTE) || decide (a.rol = .JEFE_DEPARTAMENTO)) &&
      a.estaActivo) with
  | none => (db, .error .badRequest)
  | some agente =>
      match findTicket db id with
      | none => (db, .error .internalError)
      | some t0 =>
          let ticket := { t0 with agenteId := some agenteId,
                                  estado := Estado.EN_PROGRESO }
          let db := updateTicket db id (fun t =>
            { t with agenteId := some agenteId, estado := Estado.EN_PROGRESO })
          let anterior :=
            if ticket.estado = .EN_PROGRESO then Estado.ABIERTO else ticket.estado
          let db := appendHistorial db (some anterior) .EN_PROGRESO
            (some ("Ticket asignado a " ++ agente.nombreCompleto)) id
          (db, .ok ticket)

/-- `reabrirTicket` from src/controllers/ticketController.js lines
759-801: update the ticket to `ABIERTO` clearing both dates — with no
check of the current status — and append a history row whose previous
status is the literal `'CERRADO'`.  A missing ticket makes the update
throw (caught as 500). -/
def reabrirTicket (usuario : Usuario) (db : DB) (id : Nat) :
    DB × Except HttpError Ticket :=
  match findTicket db id with
  | none => (db, .error .internalError)
  | some t0 =>
      let ticket := { t0 with estado := Estado.ABIERTO,
                              fechaResolucion := none, fechaCierre := none }
      let db := updateTicket db id (fun t =>
        { t with estado := Estado.ABIERTO,
                 fechaResolucion := none, fechaCierre := none })
      let db := appendHistorial db (some .CERRADO) .ABIERTO
        (some ("Ticket reabierto por " ++ usuario.nombreCompleto)) id
      (db, .ok ticket)

/-- `agregarRegistroTrabajo` from src/controllers/ticketController.js
lines 595-642: insert the work-log row, then update the ticket with
Prisma's atomic `horasReales: { increment: horas }`, which compiles to
`SET "horasReales" = "horasReales" + h` — an addition that leaves a
NULL aggregate NULL.  A missing ticket makes the insert violate its
foreign key (caught as 500). -/
def agregarRegistroTrabajo (usuario : Usuario) (db : DB) (id : Nat)
    (descripcion : String) (horas : ℚ) (fechaTrabajo : Option Nat) :
    DB × Except HttpError RegistroTrabajo :=
  match findTicket db id with
  | none => (db, .error .internalError)
  | some _ =>
      let registro : RegistroTrabajo :=
        { ticketId := id, agenteId := usuario.id, descripcion := descripcion,
          horas := horas, fechaTrabajo := fechaTrabajo.getD db.clock,
          creadoEn := db.clock }
      let db := { db with registros := db.registros ++ [registro],
                          clock := db.clock + 1 }
      let db := updateTicket db id (fun t =>
        { t with horasReales := t.horasReales.map (fun v => v + horas) })
      (db, .ok registro)

/-- Body of `PUT /api/tickets/:id`: the controller passes `req.body`
through to `prisma.ticket.update` unfiltered, so any ticket column may
appear; the fields the claims concern are listed. -/
structure UpdatePatch where
  asunto : Option String
  descripcion : Option String
  estado : Option Estado
  prioridad : Option Prioridad
  horasReales : Option (Option ℚ)
deriving DecidableEq, Repr

/-- Apply the raw body to a row, column by column. -/
def applyPatch (p : UpdatePatch) (t : Ticket) : Ticket :=
  let t := match p.asunto with | some a => { t with asunto := a } | none => t
  let t := match p.descripcion with
    | some d => { t with descripcion := d } | none => t
  let t := match p.estado with | some e => { t with estado := e } | none => t
  let t := match p.prioridad with
    | some pr => { t with prioridad := pr } | none => t
  match p.horasReales with | some h => { t with horasReales := h } | none => t

/-- `actualizarTicket` from src/controllers/ticketController.js lines
374-403: one `prisma.ticket.update({ data: req.body })`, no status
validation and no history row.  A missing ticket makes the update throw
(caught as 500). -/
def actualizarTicket (db : DB) (id : Nat) (p : UpdatePatch) :
    DB × Except HttpError Ticket :=
  match findTicket db id with
  | none => (db, .error .internalError)
  | some t0 =>
      (updateTicket db id (applyPatch p), .ok (applyPatch p t0))

/-- `cambioEstadoMasivo` from src/controllers/ticketController.js lines
1014-1047: one `updateMany` setting the status (and the matching date
column) on every listed ticket; no history row is written.  Returns the
updated count. -/
def cambioEstadoMasivo (db : DB) (ticketIds : List Nat) (estado : Estado) :
    DB × Nat :=
  let upd : Ticket → Ticket := fun t =>
    let t := { t with estado := estado }
    match estado with
    | .RESUELTO => { t with fechaResolucion := some db.clock }
    | .CERRADO => { t with fechaCierre := some db.clock }
    | _ => t
  let db2 := { db with tickets := db.tickets.map (fun t =>
    if ticketIds.contains t.id then upd t else t) }
  (db2, (db.tickets.filter (fun t => ticketIds.contains t.id)).length)

/-- The payload `GET /api/tickets/:id` answers: the ticket and its
included relations that matter here, in particular every comment of the
ticket. -/
structure TicketDetalle where
  ticket : Ticket
  comentarios : List Comentario
deriving DecidableEq, Repr

/-- `obtenerTicketPorId` from src/controllers/ticketController.js lines
248-368: load the ticket with all relations included.  The `comentarios`
include has no condition on `esInterno`: every comment of the ticket is
returned to any caller the route's ownership middleware lets through. -/
def obtenerTicketPorId (db : DB) (id : Nat) : Except HttpError TicketDetalle :=
  match findTicket db id with
  | none => .error .notFound
  | some t =>
      .ok { ticket := t,
            comentarios := db.comentarios.filter (fun c => decide (c.ticketId = id)) }

/-- `obtenerComentarioPorId` from
src/controllers/comentarioController.js lines 87-147: load the comment
with its ticket, then the explicit role check of lines 125-129; only the
CLIENTE arm requires `!comentario.esInterno`. -/
def obtenerComentarioPorId (usuario : Usuario) (db : DB) (id : Nat) :
    Except HttpError Comentario :=
  match db.comentarios.find? (fun c => decide (c.id = id)) with
  | none => .error .notFound
  | some comentario =>
      match findTicket db comentario.ticketId with
      | none => .error .internalError
      | some ticket =>
          let tieneAcceso :=
            decide (usuario.rol = .ADMIN) ||
            (decide (usuario.rol = .JEFE_DEPARTAMENTO) &&
              decide (some ticket.departamentoId = usuario.departamentoId)) ||
            (decide (usuario.rol = .AGENTE) &&
              decide (ticket.agenteId = some usuario.id)) ||
            (decide (usuario.rol = .CLIENTE) &&
              decide (ticket.creadorId = usuario.id) && !comentario.esInterno)
          if tieneAcceso then .ok comentario else .error .forbidden

/-!
Route-level entry points from src/routes/tickets.js: the middleware
chain of each route (`authorize` where declared, then
`verifyOwnership('ticket')` where declared) runs before the controller,
in the order the route lists it.
-/

/-- `GET /api/tickets/:id`: `verifyOwnership` then `obtenerTicketPorId`. -/
def obtenerTicketPorIdRoute (usuario : Usuario) (db : DB) (id : Nat) :
    Except HttpError TicketDetalle :=
  match verifyOwnershipTicket usuario db id with
  | .error e => .error e
  | .ok _ => obtenerTicketPorId db id

/-- `PATCH /api/tickets/:id/estado`: `verifyOwnership` then
`cambiarEstado` — the route has no `authorize` role gate. -/
def cambiarEstadoRoute (usuario : Usuario) (db : DB) (id : Nat)
    (estado : Estado) (comentario : Option String) :
    DB × Except HttpError Ticket :=
  match verifyOwnershipTicket usuario db id with
  | .error e => (db, .error e)
  | .ok _ => cambiarEstado db id estado comentario

/-- `PATCH /api/tickets/:id/asignar`:
`authorize(['ADMIN', 'JEFE_DEPARTAMENTO'])` then `asignarTicket`. -/
def asignarTicketRoute (usuario : Usuario) (db : DB) (id : Nat)
    (agenteId : Nat) : DB × Except HttpError Ticket :=
  if authorize [.ADMIN, .JEFE_DEPARTAMENTO] usuario then
    asignarTicket db id agenteId
  else (db, .error .forbidden)

/-- `POST /api/tickets/:id/reabrir`:
`authorize(['ADMIN', 'JEFE_DEPARTAMENTO'])`, then `verifyOwnership`,
then `reabrirTicket`. -/
def reabrirTicketRoute (usuario : Usuario) (db : DB) (id : Nat) :
    DB × Except HttpError Ticket :=
  if authorize [.ADMIN, .JEFE_DEPARTAMENTO] usuario then
    match verifyOwnershipTicket usuario db id with
    | .error e => (db, .error e)
    | .ok _ => reabrirTicket usuario db id
  else (db, .error .forbidden)

/-- `POST /api/tickets/:id/trabajo`:
`authorize(['AGENTE', 'JEFE_DEPARTAMENTO'])`, then `verifyOwnership`,
then `agregarRegistroTrabajo`. -/
def agregarRegistroTrabajoRoute (usuario : Usuario) (db : DB) (id : Nat)
    (descripcion : String) (horas : ℚ) (fechaTrabajo : Option Nat) :
    DB × Except HttpError RegistroTrabajo :=
  if authorize [.AGENTE, .JEFE_DEPARTAMENTO] usuario then
    match verifyOwnershipTicket usuario db id with
    | .error e => (db, .error e)
    | .ok _ => agregarRegistroTrabajo usuario db id descripcion horas fechaTrabajo
  else (db, .error .forbidden)

/-- `PUT /api/tickets/:id`: `authorize(['ADMIN', 'JEFE_DEPARTAMENTO'])`,
then `verifyOwnership`, then `actualizarTicket`. -/
def actualizarTicketRoute (usuario : Usuario) (db : DB) (id : Nat)
    (p : UpdatePatch) : DB × Except HttpError Ticket :=
  if authorize [.ADMIN, .JEFE_DEPARTAMENTO] usuario then
    match verifyOwnershipTicket usuario db id with
    | .error e => (db, .error e)
    | .ok _ => actualizarTicket db id p
  else (db, .error .forbidden)

/-- `POST /api/tickets/bulk/status`:
`authorize(['ADMIN', 'JEFE_DEPARTAMENTO'])` then `cambioEstadoMasivo`. -/
def cambioEstadoMasivoRoute (usuario : Usuario) (db : DB)
    (ticketIds : List Nat) (estado : Estado) :
    DB × Except HttpError Nat :=
  if authorize [.ADMIN, .JEFE_DEPARTAMENTO] usuario then
    let r := cambioEstadoMasivo db ticketIds estado
    (r.1, .ok r.2)
  else (db, .error .forbidden)

/-!
History-chain predicates (§8 of the spec: rows ordered by timestamp
form a connected chain).
-/

/-- The chain condition on a history suffix, given the `previousStatus`
the next row must carry (`none` before the creation row). -/
def chainAfter : Option Estado → List HistorialEstado → Bool
  | _, [] => true
  | prev, h :: rest =>
      decide (h.estadoAnterior = prev) && chainAfter (some h.estadoNuevo) rest

/-- A connected history chain: the first row's `previousStatus` is null
and every later row's `previousStatus` equals the preceding row's
`newStatus`. -/
def chainOk (l : List HistorialEstado) : Bool := chainAfter none l

/-- The `newStatus` of the last row, with a default for the empty
history. -/
def lastNuevoO : Option Estado → List HistorialEstado → Option Estado
  | p, [] => p
  | _, h :: rest => lastNuevoO (some h.estadoNuevo) rest

/-- Timestamps strictly increase along the stored history. -/
def cronoOk : List HistorialEstado → Bool
  | [] => true
  | [_] => true
  | a :: b :: rest => decide (a.cambiadoEn < b.cambiadoEn) && cronoOk (b :: rest)

/-- Every timestamp of the history is below the bound. -/
def timesBelow (l : List HistorialEstado) (n : Nat) : Bool :=
  l.all (fun h => decide (h.cambiadoEn < n))

/-!
Shared fixtures for concrete evaluations: one user per role and a
row-building helper.
-/

def uAdmin : Usuario :=
  { id := 1, rol := .ADMIN, departamentoId := none, estaActivo := true,
    nombreCompleto := "Root" }

def uJefe : Usuario :=
  { id := 2, rol := .JEFE_DEPARTAMENTO, departamentoId := some 1,
    estaActivo := true, nombreCompleto := "Jefa Uno" }

def uAgente : Usuario :=
  { id := 3, rol := .AGENTE, departamentoId := some 1, estaActivo := true,
    nombreCompleto := "Agente Uno" }

def uAgenteDos : Usuario :=
  { id := 4, rol := .AGENTE, departamentoId := some 1, estaActivo := true,
    nombreCompleto := "Agente Dos" }

def uCliente : Usuario :=
  { id := 5, rol := .CLIENTE, departamentoId := none, estaActivo := true,
    nombreCompleto := "Cliente Uno" }

def mkTicket (id : Nat) (numero : String) (estado : Estado)
    (creadorId : Nat) (agenteId : Option Nat) (dep : Nat) : Ticket :=
  { id := id, numeroTicket := numero, asunto := "Asunto de prueba",
    descripcion := "Descripcion de prueba", estado := estado,
    prioridad := .MEDIA, horasReales := none, fechaResolucion := none,
    fechaCierre := none, creadorId := creadorId, agenteId := agenteId,
    departamentoId := dep, categoriaId := 1 }

def mkDB (usuarios : List Usuario) (tickets : List Ticket)
    (comentarios : List Comentario) (historial : List HistorialEstado)
    (registros : List RegistroTrabajo) : DB :=
  { usuarios := usuarios, tickets := tickets, comentarios := comentarios,
    historial := historial, registros := registros,
    nextId := 100, clock := 10 }

def reqPrueba : CrearReq :=
  { asunto := "Impresora averiada", descripcion := "No imprime nada",
    prioridad := .MEDIA, departamentoId := 1, categoriaId := 1 }

def fechaPrueba : Fecha := { year := 2026, month := 10 }

/-!
General lemmas about the store operations.
-/

/-- `find?` after a per-row update that preserves ids. -/
theorem find_map_update (l : List Ticket) (id : Nat) (f : Ticket → Ticket)
    (hf : ∀ t, (f t).id = t.id) :
    (l.map (fun t => if t.id = id then f t else t)).find?
        (fun t => decide (t.id = id)) =
      (l.find? (fun t => decide (t.id = id))).map f := by
  induction l with
  | nil => rfl
  | cons a l ih =>
      by_cases ha : a.id = id
      · simp [List.find?, ha, hf]
      · simp [List.find?, ha, ih]

/-- `findTicket` over `updateTicket` at the same id. -/
theorem findTicket_updateTicket (db : DB) (id : Nat) (f : Ticket → Ticket)
    (hf : ∀ t, (f t).id = t.id) :
    findTicket (updateTicket db id f) id = (findTicket db id).map f := by
  simpa [findTicket, updateTicket] using find_map_update db.tickets id f hf

/-- `updateTicket` leaves the history untouched. -/
theorem historyOf_updateTicket (db : DB) (id tid : Nat) (f : Ticket → Ticket) :
    historyOf (updateTicket db id f) tid = historyOf db tid := rfl

/-- `appendHistorial` extends the target ticket's history by exactly the
new row. -/
theorem historyOf_appendHistorial (db : DB) (pre : Option Estado)
    (nuevo : Estado) (com : Option String) (tid : Nat) :
    historyOf (appendHistorial db pre nuevo com tid) tid =
      historyOf db tid ++
        [{ ticketId := tid, estadoAnterior := pre, estadoNuevo := nuevo,
           comentario := com, cambiadoEn := db.clock }] := by
  simp [historyOf, appendHistorial, List.filter_append]

/-- `appendHistorial` does not touch the ticket rows. -/
theorem findTicket_appendHistorial (db : DB) (pre : Option Estado)
    (nuevo : Estado) (com : Option String) (tid id : Nat) :
    findTicket (appendHistorial db pre nuevo com tid) id = findTicket db id := rfl

/-- The status-change `updateData` never touches the id column. -/
theorem cambiarEstadoUpd_id (clock : Nat) (e : Estado) (t : Ticket) :
    (cambiarEstadoUpd clock e t).id = t.id := by cases e <;> rfl

/-- The status-change `updateData` sets exactly the requested status. -/
theorem cambiarEstadoUpd_estado (clock : Nat) (e : Estado) (t : Ticket) :
    (cambiarEstadoUpd clock e t).estado = e := by cases e <;> rfl

/-!
Claim theorems.
-/

/-- Claim C2: for an existing ticket, the single-resource ownership
middleware admits an actor exactly when the ticket satisfies the role
scope predicate that `obtenerTickets` uses for its list filtering (the
scope with no query filters applied): ADMIN always, DEPARTMENT_HEAD on
department match, AGENT on assignee match, CLIENT on creator match. -/
theorem claim_C2_access_matches_scope (u : Usuario) (db : DB) (id : Nat)
    (t : Ticket) (h : findTicket db id = some t) :
    verifyOwnershipTicket u db id = .ok t ↔
      matchesWhere (buildWhere u sinFiltros) t = true := by
  rcases u with ⟨uid, rol, udep, uact, unom⟩
  cases rol <;>
    simp [verifyOwnershipTicket, h, buildWhere, sinFiltros, matchesWhere]

/-- Claim C2 witness: an agent reading their own assigned ticket. -/
theorem claim_C2_access_matches_scope_witness :
    verifyOwnershipTicket uAgente
        (mkDB [uAgente] [mkTicket 7 "2026-10-000001" .EN_PROGRESO 5 (some 3) 1] [] [] []) 7 =
        .ok (mkTicket 7 "2026-10-000001" .EN_PROGRESO 5 (some 3) 1) ↔
      matchesWhere (buildWhere uAgente sinFiltros)
        (mkTicket 7 "2026-10-000001" .EN_PROGRESO 5 (some 3) 1) = true :=
  claim_C2_access_matches_scope uAgente
    (mkDB [uAgente] [mkTicket 7 "2026-10-000001" .EN_PROGRESO 5 (some 3) 1] [] [] [])
    7 (mkTicket 7 "2026-10-000001" .EN_PROGRESO 5 (some 3) 1) (by decide)

/-- Claim C10: when the requested ticket id does not exist, the
ownership middleware answers NotFound only to an ADMIN; for every other
role the branch dereferences a field of the missing row before the
existence check, so the request ends as an internal error. -/
theorem claim_C10_missing_ticket_roles (u : Usuario) (db : DB) (id : Nat)
    (h : findTicket db id = none) :
    (u.rol = .ADMIN → verifyOwnershipTicket u db id = .error .notFound) ∧
    (u.rol ≠ .ADMIN → verifyOwnershipTicket u db id = .error .internalError) := by
  rcases u with ⟨uid, rol, udep, uact, unom⟩
  cases rol <;> simp [verifyOwnershipTicket, h]

/-- Claim C10 witness: a client and an admin requesting an id absent
from an empty store. -/
theorem claim_C10_missing_ticket_roles_witness :
    (uCliente.rol = .ADMIN →
      verifyOwnershipTicket uCliente (mkDB [] [] [] [] []) 9 = .error .notFound) ∧
    (uCliente.rol ≠ .ADMIN →
      verifyOwnershipTicket uCliente (mkDB [] [] [] [] []) 9 = .error .internalError) :=
  claim_C10_missing_ticket_roles uCliente (mkDB [] [] [] [] []) 9 (by decide)

/-- An internal comment on ticket 1. -/
def comInterno : Comentario :=
  { id := 9, contenido := "Nota interna del agente", esInterno := true,
    creadoEn := 1, autorId := 3, ticketId := 1 }

/-- A public comment on ticket 1. -/
def comPublico : Comentario :=
  { id := 7, contenido := "Respuesta al cliente", esInterno := false,
    creadoEn := 2, autorId := 3, ticketId := 1 }

/-- Ticket 1, created by the client (id 5). -/
def tLeak : Ticket := mkTicket 1 "2026-10-000001" .EN_PROGRESO 5 (some 3) 1

/-- Store with the client's ticket and both comments. -/
def dbLeak : DB := mkDB [uAgente, uCliente] [tLeak] [comInterno, comPublico] [] []

/-- Claim C3 counterexample: the CLIENT who created ticket 1 fetches it
through `GET /api/tickets/:id` and receives the internal comment in the
included comment list — the full-ticket fetch applies no `esInterno`
redaction. -/
theorem claim_C3_counterexample :
    uCliente.rol = .CLIENTE ∧
    obtenerTicketPorIdRoute uCliente dbLeak 1 =
      .ok { ticket := tLeak, comentarios := [comInterno, comPublico] } ∧
    comInterno.esInterno = true := by decide

/-- Claim C3 amended: the single-comment fetch never hands a CLIENT an
internal comment, but the full-ticket fetch returns every comment of
the ticket — internal ones included — to any caller the ownership
middleware admits. -/
theorem claim_C3_amended :
    (∀ (u : Usuario) (db : DB) (cid : Nat) (c : Comentario),
      u.rol = .CLIENTE → obtenerComentarioPorId u db cid = .ok c →
      c.esInterno = false) ∧
    (∀ (u : Usuario) (db : DB) (id : Nat) (d : TicketDetalle),
      obtenerTicketPorIdRoute u db id = .ok d →
      d.comentarios = db.comentarios.filter (fun c => decide (c.ticketId = id))) := by
  constructor
  · intro u db cid c hu hc
    unfold obtenerComentarioPorId at hc
    cases hfind : db.comentarios.find? (fun x => decide (x.id = cid)) with
    | none => rw [hfind] at hc; exact absurd hc (by simp)
    | some comentario =>
      rw [hfind] at hc
      simp only at hc
      cases hticket : findTicket db comentario.ticketId with
      | none => rw [hticket] at hc; exact absurd hc (by simp)
      | some ticket =>
        rw [hticket] at hc
        simp only [hu] at hc
        by_cases hint : comentario.esInterno = true
        · simp [hint] at hc
        · simp at hc
          split at hc
          · cases hc
            simpa using hint
          · exact absurd hc (by simp)
  · intro u db id d hd
    unfold obtenerTicketPorIdRoute at hd
    split at hd
    · exact absurd hd (by simp)
    unfold obtenerTicketPorId at hd
    split at hd
    · exact absurd hd (by simp)
    cases hd
    rfl

/-- Claim C3 amended witness: the client reads the public comment
(allowed, and indeed not internal), and the full-ticket payload for
ticket 1 is exactly the unredacted comment list. -/
theorem claim_C3_amended_witness :
    comPublico.esInterno = false ∧
    (TicketDetalle.mk tLeak [comInterno, comPublico]).comentarios =
      dbLeak.comentarios.filter (fun c => decide (c.ticketId = 1)) :=
  ⟨claim_C3_amended.1 uCliente dbLeak 7 comPublico rfl (by decide),
   claim_C3_amended.2 uCliente dbLeak 1
     (TicketDetalle.mk tLeak [comInterno, comPublico]) (by decide)⟩

/-- Ticket 8 of department 1, assigned to agent 4 (not to agent 3). -/
def tAjeno : Ticket := mkTicket 8 "2026-10-000002" .EN_PROGRESO 5 (some 4) 1

/-- The list query an agent can send with `?agenteId=4`. -/
def filtrosAgenteAjeno : Filtros := { sinFiltros with agenteId := some 4 }

/-- Claim C4 counterexample: agent 3 lists tickets with the query
filter `agenteId=4`; the filter assignment overwrites the role scope,
so a ticket assigned to agent 4 (same department) is returned to
agent 3. -/
theorem claim_C4_counterexample :
    uAgente.rol = .AGENTE ∧
    tAjeno ∈ obtenerTickets uAgente filtrosAgenteAjeno
        (mkDB [uAgente, uAgenteDos] [tAjeno] [] [] []) ∧
    tAjeno.agenteId ≠ some uAgente.id := by decide

/-- Claim C4 amended: when the request supplies no `agenteId` query
filter, every ticket the list returns to an AGENT is assigned to that
agent, whatever the remaining filters; the `agenteId` filter, when
supplied, overwrites the role scope. -/
theorem claim_C4_amended (u : Usuario) (f : Filtros) (db : DB) (t : Ticket)
    (hu : u.rol = .AGENTE) (hf : f.agenteId = none)
    (ht : t ∈ obtenerTickets u f db) : t.agenteId = some u.id := by
  have hw : (buildWhere u f).agenteId = some u.id := by
    rcases f with ⟨fe, fp, fd, fc, fa, fb⟩
    simp only at hf
    subst hf
    cases fe <;> cases fp <;> cases fd <;> cases fc <;> cases fb <;>
      simp [buildWhere, hu]
  simp only [obtenerTickets, List.mem_filter] at ht
  have hm := ht.2
  rw [matchesWhere, hw] at hm
  simp only [Bool.and_eq_true, decide_eq_true_eq] at hm
  exact hm.1.1.1.1.1.2

/-- Claim C4 amended witness: with no query filters, agent 3 sees their
own ticket, and it is indeed assigned to them. -/
theorem claim_C4_amended_witness :
    (mkTicket 9 "2026-10-000003" .EN_PROGRESO 5 (some 3) 1).agenteId =
      some uAgente.id :=
  claim_C4_amended uAgente sinFiltros
    (mkDB [uAgente] [mkTicket 9 "2026-10-000003" .EN_PROGRESO 5 (some 3) 1] [] [] [])
    (mkTicket 9 "2026-10-000003" .EN_PROGRESO 5 (some 3) 1)
    rfl rfl (by decide)

/-- An open, unassigned ticket created by the client. -/
def tAbierto : Ticket := mkTicket 1 "2026-10-000001" .ABIERTO 5 none 1

/-- Store holding only `tAbierto`. -/
def dbBypass : DB := mkDB [uAdmin, uCliente] [tAbierto] [] [] []

/-- Claim C1 counterexample: an ADMIN invokes
`POST /api/tickets/bulk/status` on ticket 1; the status changes to
`RESUELTO` while the history table is left untouched — an exposed
operation sets `status` and bypasses history logging. -/
theorem claim_C1_counterexample :
    (cambioEstadoMasivoRoute uAdmin dbBypass [1] .RESUELTO).1.historial =
      dbBypass.historial ∧
    (findTicket (cambioEstadoMasivoRoute uAdmin dbBypass [1] .RESUELTO).1 1).map
      Ticket.estado = some .RESUELTO ∧
    tAbierto.estado ≠ .RESUELTO := by decide

/-- Claim C1 amended: the dedicated status-change handler appends
exactly one HistoryEntry per invocation while it updates the status
(two store writes inside one handler, not one transaction), but the
generic update handler and the bulk status handler change `status`
while appending no HistoryEntry at all. -/
theorem claim_C1_amended :
    (∀ (db : DB) (id : Nat) (estado : Estado) (c : Option String) (t0 : Ticket),
      findTicket db id = some t0 →
      (historyOf (cambiarEstado db id estado c).1 id).length =
          (historyOf db id).length + 1 ∧
        (cambiarEstado db id estado c).1.historial.length =
          db.historial.length + 1 ∧
        (findTicket (cambiarEstado db id estado c).1 id).map Ticket.estado =
          some estado) ∧
    (∀ (db : DB) (ids : List Nat) (e : Estado),
      (cambioEstadoMasivo db ids e).1.historial = db.historial) ∧
    (∀ (db : DB) (id : Nat) (p : UpdatePatch),
      (actualizarTicket db id p).1.historial = db.historial) := by
  refine ⟨?_, ?_, ?_⟩
  · intro db id estado c t0 h
    unfold cambiarEstado
    rw [h]
    simp only
    refine ⟨?_, ?_, ?_⟩
    · rw [historyOf_appendHistorial, historyOf_updateTicket]
      simp
    · simp [appendHistorial, updateTicket]
    · rw [findTicket_appendHistorial, findTicket_updateTicket, h]
      · cases estado <;> rfl
      · intro t; cases estado <;> rfl
  · intro db ids e
    rfl
  · intro db id p
    unfold actualizarTicket
    cases h : findTicket db id <;> simp [h, updateTicket]

/-- The raw body an ADMIN can send to `PUT /api/tickets/:id`. -/
def patchEstado : UpdatePatch :=
  { asunto := none, descripcion := none, estado := some .CERRADO,
    prioridad := none, horasReales := none }

/-- Claim C1 amended witness: the three parts applied to the concrete
store `dbBypass`. -/
theorem claim_C1_amended_witness :
    ((historyOf (cambiarEstado dbBypass 1 .EN_PROGRESO none).1 1).length =
        (historyOf dbBypass 1).length + 1 ∧
      (cambiarEstado dbBypass 1 .EN_PROGRESO none).1.historial.length =
        dbBypass.historial.length + 1 ∧
      (findTicket (cambiarEstado dbBypass 1 .EN_PROGRESO none).1 1).map
        Ticket.estado = some .EN_PROGRESO) ∧
    (cambioEstadoMasivo dbBypass [1] .RESUELTO).1.historial =
      dbBypass.historial ∧
    (actualizarTicket dbBypass 1 patchEstado).1.historial =
      dbBypass.historial :=
  ⟨claim_C1_amended.1 dbBypass 1 .EN_PROGRESO none tAbierto (by decide),
   claim_C1_amended.2.1 dbBypass [1] .RESUELTO,
   claim_C1_amended.2.2 dbBypass 1 patchEstado⟩

/-- A closed ticket created by the client and assigned to agent 3. -/
def tCerrado : Ticket := mkTicket 1 "2026-10-000001" .CERRADO 5 (some 3) 1

/-- Store holding only `tCerrado`. -/
def dbCerrado : DB := mkDB [uAdmin, uJefe, uAgente, uCliente] [tCerrado] [] [] []

/-- Claim C5 counterexample: the CLIENT who created a CLOSED ticket
brings it back to OPEN through `PATCH /api/tickets/:id/estado` — the
generic status change has no role gate beyond ownership, so the
operation succeeds instead of failing. -/
theorem claim_C5_counterexample :
    uCliente.rol ≠ .ADMIN ∧ uCliente.rol ≠ .JEFE_DEPARTAMENTO ∧
    tCerrado.estado = .CERRADO ∧
    (cambiarEstadoRoute uCliente dbCerrado 1 .ABIERTO none).2 =
      .ok { tCerrado with estado := .ABIERTO } ∧
    (findTicket (cambiarEstadoRoute uCliente dbCerrado 1 .ABIERTO none).1 1).map
      Ticket.estado = some .ABIERTO := by decide

/-- Claim C5 amended: the dedicated reopen endpoint rejects every actor
other than ADMIN and DEPARTMENT_HEAD with Forbidden and no store
change; but the generic status-change endpoint lets the CLIENT creator
of a CLOSED ticket set its status to OPEN. -/
theorem claim_C5_amended :
    (∀ (u : Usuario) (db : DB) (id : Nat),
      u.rol ≠ .ADMIN → u.rol ≠ .JEFE_DEPARTAMENTO →
      reabrirTicketRoute u db id = (db, .error .forbidden)) ∧
    (∀ (u : Usuario) (db : DB) (id : Nat) (t : Ticket),
      u.rol = .CLIENTE → findTicket db id = some t → t.creadorId = u.id →
      t.estado = .CERRADO →
      (cambiarEstadoRoute u db id .ABIERTO none).2 =
          .ok { t with estado := .ABIERTO } ∧
        findTicket (cambiarEstadoRoute u db id .ABIERTO none).1 id =
          some { t with estado := .ABIERTO }) := by
  constructor
  · intro u db id h1 h2
    rcases u with ⟨uid, rol, udep, uact, unom⟩
    cases rol <;> simp_all [reabrirTicketRoute, authorize]
  · intro u db id t hu hf hcr hes
    have hback : verifyOwnershipTicket u db id = .ok t := by
      simp [verifyOwnershipTicket, hu, hf, hcr]
    unfold cambiarEstadoRoute
    rw [hback]
    simp only
    unfold cambiarEstado
    rw [hf]
    simp only
    refine ⟨by trivial, ?_⟩
    rw [findTicket_appendHistorial, findTicket_updateTicket, hf]
    · rfl
    · intro t2; rfl

/-- Claim C5 amended witness: agent 3 is refused by the reopen
endpoint, while the client reopens the same closed ticket through the
status-change endpoint. -/
theorem claim_C5_amended_witness :
    reabrirTicketRoute uAgente dbCerrado 1 = (dbCerrado, .error .forbidden) ∧
    ((cambiarEstadoRoute uCliente dbCerrado 1 .ABIERTO none).2 =
        .ok { tCerrado with estado := .ABIERTO } ∧
      findTicket (cambiarEstadoRoute uCliente dbCerrado 1 .ABIERTO none).1 1 =
        some { tCerrado with estado := .ABIERTO }) :=
  ⟨claim_C5_amended.1 uAgente dbCerrado 1 (by decide) (by decide),
   claim_C5_amended.2 uCliente dbCerrado 1 tCerrado rfl (by decide)
     (by decide) (by decide)⟩

/-- `(l ++ [a]).getLast? = some a`. -/
theorem getLast?_append_singleton {α : Type} (l : List α) (a : α) :
    (l ++ [a]).getLast? = some a := by
  simp

/-- Ticket 1 already in progress, assigned to agent 3. -/
def tEnProgreso : Ticket := mkTicket 1 "2026-10-000001" .EN_PROGRESO 5 (some 3) 1

/-- Store holding only `tEnProgreso`. -/
def dbAsignado : DB :=
  mkDB [uAdmin, uJefe, uAgente, uAgenteDos, uCliente] [tEnProgreso] [] [] []

/-- Claim C6 counterexample: reassigning a ticket that is already
IN_PROGRESS appends one new HistoryEntry, not zero — the handler
writes the history row unconditionally. -/
theorem claim_C6_counterexample :
    tEnProgreso.estado = .EN_PROGRESO ∧
    (historyOf (asignarTicketRoute uJefe dbAsignado 1 4).1 1).length =
      (historyOf dbAsignado 1).length + 1 := by decide

/-- Claim C6 amended: whenever the assignee is a valid active agent and
the ticket exists, `asignarTicket` sets the assignee, forces the status
to IN_PROGRESS, and appends exactly one HistoryEntry whose recorded
previous status is always OPEN — whatever the ticket's status was. -/
theorem claim_C6_amended (db : DB) (id agenteId : Nat) (t : Ticket)
    (ag : Usuario) (hag : db.usuarios.find? (fun a => decide (a.id = agenteId) &&
        (decide (a.rol = .AGENTE) || decide (a.rol = .JEFE_DEPARTAMENTO)) &&
        a.estaActivo) = some ag)
    (ht : findTicket db id = some t) :
    (asignarTicket db id agenteId).2 =
        .ok { t with agenteId := some agenteId, estado := .EN_PROGRESO } ∧
      findTicket (asignarTicket db id agenteId).1 id =
        some { t with agenteId := some agenteId, estado := .EN_PROGRESO } ∧
      (historyOf (asignarTicket db id agenteId).1 id).length =
        (historyOf db id).length + 1 ∧
      (historyOf (asignarTicket db id agenteId).1 id).getLast? =
        some { ticketId := id, estadoAnterior := some .ABIERTO,
               estadoNuevo := .EN_PROGRESO,
               comentario := some ("Ticket asignado a " ++ ag.nombreCompleto),
               cambiadoEn := db.clock } := by
  unfold asignarTicket
  rw [hag, ht]
  simp only
  refine ⟨by trivial, ?_, ?_, ?_⟩
  · rw [findTicket_appendHistorial, findTicket_updateTicket, ht]
    · rfl
    · intro t2; rfl
  · rw [historyOf_appendHistorial, historyOf_updateTicket]
    simp
  · rw [historyOf_appendHistorial, historyOf_updateTicket]
    rw [getLast?_append_singleton]
    rfl

/-- Claim C6 amended witness: reassigning the in-progress ticket 1 to
agent 4. -/
theorem claim_C6_amended_witness :
    (asignarTicket dbAsignado 1 4).2 =
        .ok { tEnProgreso with agenteId := some 4, estado := .EN_PROGRESO } ∧
      findTicket (asignarTicket dbAsignado 1 4).1 1 =
        some { tEnProgreso with agenteId := some 4, estado := .EN_PROGRESO } ∧
      (historyOf (asignarTicket dbAsignado 1 4).1 1).length =
        (historyOf dbAsignado 1).length + 1 ∧
      (historyOf (asignarTicket dbAsignado 1 4).1 1).getLast? =
        some { ticketId := 1, estadoAnterior := some .ABIERTO,
               estadoNuevo := .EN_PROGRESO,
               comentario := some ("Ticket asignado a " ++ uAgenteDos.nombreCompleto),
               cambiadoEn := dbAsignado.clock } :=
  claim_C6_amended dbAsignado 1 4 tEnProgreso uAgenteDos (by decide) (by decide)

/-- A store whose month bucket holds the numbers `2026-10-9` and
`2026-10-000010`: the lexicographic maximum is `2026-10-9`, whose
parsed successor collides with the existing `2026-10-000010`. -/
def dbColision : DB :=
  mkDB [] [mkTicket 1 "2026-10-9" .ABIERTO 5 none 1,
           mkTicket 2 "2026-10-000010" .ABIERTO 5 none 1] [] [] []

/-- A store whose month bucket has reached sequence 999999. -/
def dbTope : DB :=
  mkDB [] [mkTicket 1 "2026-10-999999" .ABIERTO 5 none 1] [] [] []

/-- Claim C9 counterexample: a uniqueness conflict on the generated
number makes `crearTicket` surface an internal error with no retry and
no store change; and the generator can produce `2026-10-1000000`, a
number outside the `YYYY-MM-NNNNNN` format, from a store whose existing
number is well-formed. -/
theorem claim_C9_counterexample :
    generateTicketNumber dbColision fechaPrueba = "2026-10-000010" ∧
    crearTicket uCliente reqPrueba dbColision fechaPrueba =
      (dbColision, .error .internalError) ∧
    generateTicketNumber dbTope fechaPrueba = "2026-10-1000000" ∧
    esFormatoNumeroTicket (generateTicketNumber dbTope fechaPrueba) = false ∧
    esFormatoNumeroTicket "2026-10-999999" = true := by decide

/-- Claim C9 amended: ticket creation computes the number once; when
that number already exists in the store the insert's unique-index
violation is answered as a fatal internal error with nothing created
and no regeneration. -/
theorem claim_C9_amended (u : Usuario) (req : CrearReq) (db : DB) (now : Fecha)
    (h : db.tickets.any
      (fun t => decide (t.numeroTicket = generateTicketNumber db now)) = true) :
    crearTicket u req db now = (db, .error .internalError) := by
  unfold crearTicket
  simp [h]

/-- Claim C9 amended witness: the colliding store. -/
theorem claim_C9_amended_witness :
    crearTicket uCliente reqPrueba dbColision fechaPrueba =
      (dbColision, .error .internalError) :=
  claim_C9_amended uCliente reqPrueba dbColision fechaPrueba (by decide)

/-- A fresh store: the department-head and the client exist, nothing
else. -/
def dbInicial : DB :=
  { usuarios := [uJefe, uCliente], tickets := [], comentarios := [],
    historial := [], registros := [], nextId := 1, clock := 0 }

/-- The store after the client creates a ticket (id 1,
`horasReales` NULL). -/
def dbTrasCrear : DB := (crearTicket uCliente reqPrueba dbInicial fechaPrueba).1

/-- The store after the department head logs 2 hours on ticket 1. -/
def dbTrasTrabajo : DB :=
  (agregarRegistroTrabajoRoute uJefe dbTrasCrear 1
    "Diagnostico completo de la impresora" 2 none).1

/-!
History-chain development for claim C7.
-/

/-- One `PATCH /api/tickets/:id/estado` request. -/
structure Cambio where
  usuario : Usuario
  estado : Estado
  comentario : Option String
deriving DecidableEq, Repr

/-- Run a sequence of status-change requests against one ticket. -/
def aplicarCambios (id : Nat) : DB → List Cambio → DB
  | db, [] => db
  | db, c :: rest =>
      aplicarCambios id (cambiarEstadoRoute c.usuario db id c.estado c.comentario).1 rest

/-- Appending to a history chain: the new row must carry the last
`newStatus` as its `previousStatus`. -/
theorem chainAfter_concat (p : Option Estado) (l : List HistorialEstado)
    (h : HistorialEstado) :
    chainAfter p (l ++ [h]) =
      (chainAfter p l && decide (h.estadoAnterior = lastNuevoO p l)) := by
  induction l generalizing p with
  | nil => simp [chainAfter, lastNuevoO]
  | cons x xs ih => simp [chainAfter, lastNuevoO, ih, Bool.and_assoc]

/-- The last `newStatus` after an append is the appended row's. -/
theorem lastNuevoO_concat (p : Option Estado) (l : List HistorialEstado)
    (h : HistorialEstado) : lastNuevoO p (l ++ [h]) = some h.estadoNuevo := by
  induction l generalizing p with
  | nil => rfl
  | cons x xs ih => exact ih _

/-- Appending a strictly later row keeps timestamps increasing. -/
theorem cronoOk_concat : ∀ (l : List HistorialEstado) (h : HistorialEstado),
    cronoOk l = true → (∀ x ∈ l, x.cambiadoEn < h.cambiadoEn) →
    cronoOk (l ++ [h]) = true
  | [], _, _, _ => rfl
  | [a], h, _, hall => by
      simp [cronoOk, hall a (by simp)]
  | a :: b :: bs, h, hl, hall => by
      simp only [cronoOk, Bool.and_eq_true, decide_eq_true_eq] at hl
      have hrec := cronoOk_concat (b :: bs) h hl.2
        (fun x hx => hall x (by simp [hx]))
      simp only [List.cons_append, cronoOk, Bool.and_eq_true, decide_eq_true_eq]
      exact ⟨hl.1, by simpa using hrec⟩

/-- A timestamp bound is monotone. -/
theorem timesBelow_mono (l : List HistorialEstado) (m n : Nat)
    (h : timesBelow l m = true) (hmn : m ≤ n) : timesBelow l n = true := by
  simp only [timesBelow, List.all_eq_true, decide_eq_true_eq] at h ⊢
  exact fun x hx => lt_of_lt_of_le (h x hx) hmn

/-- Bound on an appended history. -/
theorem timesBelow_concat (l : List HistorialEstado) (h : HistorialEstado)
    (n : Nat) (hl : timesBelow l n = true) (hn : h.cambiadoEn < n) :
    timesBelow (l ++ [h]) n = true := by
  simp only [timesBelow, List.all_eq_true, decide_eq_true_eq, List.mem_append,
    List.mem_singleton] at hl ⊢
  rintro x (hx | rfl)
  · exact hl x hx
  · exact hn

/-- The invariant maintained along status-change traces: the ticket's
history is a connected chain with strictly increasing timestamps all
below the store clock, and the last row's `newStatus` is the ticket's
current status. -/
def histInv (db : DB) (tid : Nat) : Prop :=
  chainOk (historyOf db tid) = true ∧
  cronoOk (historyOf db tid) = true ∧
  timesBelow (historyOf db tid) db.clock = true ∧
  ∃ t, findTicket db tid = some t ∧
    lastNuevoO none (historyOf db tid) = some t.estado

/-- Ticket creation on a fresh store establishes the invariant for the
created ticket. -/
theorem histInv_crearTicket (u : Usuario) (req : CrearReq) (db : DB)
    (now : Fecha) (h0 : db.tickets = []) (h1 : db.historial = []) :
    histInv (crearTicket u req db now).1 db.nextId := by
  unfold crearTicket
  simp only [h0, List.any_nil, Bool.false_eq_true, if_false]
  unfold histInv historyOf findTicket
  simp [appendHistorial, h0, h1, chainOk, chainAfter, cronoOk, timesBelow,
    lastNuevoO]

/-- One status-change request preserves the invariant. -/
theorem histInv_cambiarEstadoRoute (u : Usuario) (db : DB) (tid : Nat)
    (e : Estado) (c : Option String) (hinv : histInv db tid) :
    histInv (cambiarEstadoRoute u db tid e c).1 tid := by
  unfold cambiarEstadoRoute
  cases hv : verifyOwnershipTicket u db tid with
  | error err => exact hinv
  | ok t2 =>
      obtain ⟨hchain, hcrono, htimes, t, hft, hlast⟩ := hinv
      unfold cambiarEstado
      rw [hft]
      simp only
      refine ⟨?_, ?_, ?_, ⟨cambiarEstadoUpd db.clock e t, ?_, ?_⟩⟩
      · rw [historyOf_appendHistorial, historyOf_updateTicket]
        unfold chainOk at hchain ⊢
        rw [chainAfter_concat]
        simp [hchain, hlast]
      · rw [historyOf_appendHistorial, historyOf_updateTicket]
        refine cronoOk_concat _ _ hcrono ?_
        simp only [timesBelow, List.all_eq_true, decide_eq_true_eq] at htimes
        simpa [updateTicket] using htimes
      · rw [historyOf_appendHistorial, historyOf_updateTicket]
        simp only [appendHistorial, updateTicket]
        refine timesBelow_concat _ _ _ (timesBelow_mono _ _ _ htimes ?_) ?_
        · exact Nat.le_succ _
        · exact Nat.lt_succ_self _
      · rw [findTicket_appendHistorial,
          findTicket_updateTicket _ _ _ (cambiarEstadoUpd_id db.clock e), hft]
        rfl
      · rw [historyOf_appendHistorial, historyOf_updateTicket,
          lastNuevoO_concat, cambiarEstadoUpd_estado]

/-- Every trace of status-change requests preserves the invariant. -/
theorem histInv_aplicarCambios (tid : Nat) (cs : List Cambio) :
    ∀ db : DB, histInv db tid → histInv (aplicarCambios tid db cs) tid := by
  induction cs with
  | nil => exact fun db h => h
  | cons c rest ih =>
      exact fun db h =>
        ih _ (histInv_cambiarEstadoRoute c.usuario db tid c.estado c.comentario h)

/-- The store after an ADMIN reopens the freshly created (and still
open) ticket 1. -/
def dbReabierto : DB := (reabrirTicketRoute uAdmin dbTrasCrear 1).1

/-- Claim C7 counterexample: create a ticket, then reopen it.  Both
operations succeed, the history rows are in timestamp order, yet the
chain is broken: the second row records `previousStatus = CERRADO`
(hardcoded by `reabrirTicket`) while the first row's `newStatus` is
`ABIERTO`. -/
theorem claim_C7_counterexample :
    (historyOf dbReabierto 1).map HistorialEstado.estadoAnterior =
      [none, some .CERRADO] ∧
    (historyOf dbReabierto 1).map HistorialEstado.estadoNuevo =
      [.ABIERTO, .ABIERTO] ∧
    cronoOk (historyOf dbReabierto 1) = true ∧
    chainOk (historyOf dbReabierto 1) = false := by decide

/-- Claim C7 amended: the histories produced by `crearTicket` on a
fresh store followed by any sequence of `PATCH /:id/estado` requests
form a connected chain in timestamp order; the operations that break
the chain are `asignarTicket` and `reabrirTicket` (hardcoded previous
status) and the history-less status writes of `actualizarTicket` /
`cambioEstadoMasivo`. -/
theorem claim_C7_amended (db : DB) (u : Usuario) (req : CrearReq)
    (now : Fecha) (cs : List Cambio) (h0 : db.tickets = [])
    (h1 : db.historial = []) :
    chainOk (historyOf
        (aplicarCambios db.nextId (crearTicket u req db now).1 cs)
        db.nextId) = true ∧
    cronoOk (historyOf
        (aplicarCambios db.nextId (crearTicket u req db now).1 cs)
        db.nextId) = true := by
  have h := histInv_aplicarCambios db.nextId cs _
    (histInv_crearTicket u req db now h0 h1)
  exact ⟨h.1, h.2.1⟩

/-- Two status changes after creation. -/
def cambiosPrueba : List Cambio :=
  [{ usuario := uAdmin, estado := .RESUELTO, comentario := none },
   { usuario := uAdmin, estado := .CERRADO,
     comentario := some "Cerrado tras verificar" }]

/-- Claim C7 amended witness: the concrete trace create, resolve,
close. -/
theorem claim_C7_amended_witness :
    chainOk (historyOf
        (aplicarCambios dbInicial.nextId
          (crearTicket uCliente reqPrueba dbInicial fechaPrueba).1
          cambiosPrueba)
        dbInicial.nextId) = true ∧
    cronoOk (historyOf
        (aplicarCambios dbInicial.nextId
          (crearTicket uCliente reqPrueba dbInicial fechaPrueba).1
          cambiosPrueba)
        dbInicial.nextId) = true :=
  claim_C7_amended dbInicial uCliente reqPrueba fechaPrueba cambiosPrueba
    rfl rfl

/-- Claim C8: evaluation of the code at the failing input.  After the
work log, the ticket's work-log hours sum to 2, but `horasReales` is
still NULL: the row was created without the column, and the atomic
`increment` translates to `SET horasReales = horasReales + 2`, which
leaves NULL unchanged — the aggregate never equals the sum. -/
theorem claim_C8_code_bug_eval :
    sumHoras dbTrasTrabajo 1 = 2 ∧
    (findTicket dbTrasTrabajo 1).map Ticket.horasReales = some none ∧
    (2 : ℚ) ≠ 0 := by
  refine ⟨?_, by decide, by norm_num⟩
  have hr : registrosOf dbTrasTrabajo 1 =
      [{ ticketId := 1, agenteId := 2,
         descripcion := "Diagnostico completo de la impresora",
         horas := 2, fechaTrabajo := 2, creadoEn := 2 }] := by decide
  unfold sumHoras
  rw [hr]
  simp

end Helpdesk
